import Mathlib

/-!
Formal verification of the TDS 7.4 protocol engine of the `minitds` driver
(`minitds/minitds.py`, plus the repository's older single-file revision
`minitds.py`), against its natural-language specification.

Byte strings are modelled as `List Nat` (each element one octet, `< 256`
wherever the source produced them from real bytes); Python strings as lists
of Unicode code points; machine integers as `Nat`/`Int` with explicit
`% 2 ^ w` where the source wraps.  Python's `%` and `//` on integers are
floor operations; for a positive divisor they coincide with Lean's euclidean
`%` and `/` on `Int`, which is what the embedding uses.  Fallible code (raises,
failing asserts, out-of-range indexing) is embedded in `Except`.
-/

namespace Minitds

/-- Decidable equality of `Except` results, used to evaluate the embedded
    parsers on concrete inputs. -/
instance {e a : Type} [DecidableEq e] [DecidableEq a] :
    DecidableEq (Except e a)
  | .ok x, .ok y =>
    if h : x = y then .isTrue (by rw [h])
    else .isFalse (fun hh => h (by cases hh; rfl))
  | .error x, .error y =>
    if h : x = y then .isTrue (by rw [h])
    else .isFalse (fun hh => h (by cases hh; rfl))
  | .ok _, .error _ => .isFalse (fun hh => by cases hh)
  | .error _, .ok _ => .isFalse (fun hh => by cases hh)

/-- `int.from_bytes(b, byteorder='little', signed=False)`
    (source `_bytes_to_uint`). -/
def leUInt : List Nat → Nat
  | [] => 0
  | b :: rest => b + 256 * leUInt rest

/-- `int.from_bytes(b, byteorder='big')` (source `_bytes_to_bint`). -/
def beUInt (b : List Nat) : Nat :=
  b.foldl (fun acc x => acc * 256 + x) 0

/-- `int.from_bytes(b, byteorder='little', signed=True)`
    (source `_bytes_to_int`).  For octet lists (`b'` elements `< 256`) this is
    exactly Python's two's-complement reading; `b = []` gives `0`. -/
def leSInt (b : List Nat) : Int :=
  if leUInt b < 2 ^ (8 * b.length - 1) ∨ b = [] then (leUInt b : Int)
  else (leUInt b : Int) - 2 ^ (8 * b.length)

/-- `v.to_bytes(n, byteorder='little')` (source `_int_to_2bytes` etc.):
    little-endian octets of `v`, `n` of them. -/
def toBytesLE (n v : Nat) : List Nat :=
  (List.range n).map fun k => v / 256 ^ k % 256

/-- `v.to_bytes(n, byteorder='big')` (source `_bint_to_2bytes` etc.). -/
def toBytesBE (n v : Nat) : List Nat :=
  (List.range n).map fun k => v / 256 ^ (n - 1 - k) % 256

/-- Python slice index resolution for `l[:i]` / `l[i:]`: a negative index
    counts from the end, and indices are clamped to `[0, len l]`. -/
def pyIdx (len : Nat) (i : Int) : Nat :=
  if i < 0 then (len + i).toNat else min i.toNat len

/-- Python `l[:i]` (slice semantics, total). -/
def pyTake (i : Int) (l : List α) : List α :=
  l.take (pyIdx l.length i)

/-- Python `l[i:]` (slice semantics, total). -/
def pyDrop (i : Int) (l : List α) : List α :=
  l.drop (pyIdx l.length i)

/-- Python `l[a:b]` for the non-negative lower bounds the source uses. -/
def pySlice (a : Nat) (b : Int) (l : List α) : List α :=
  (pyTake b l).drop a

/-- `s.encode('utf_16_le')` (source `_str_to_bytes`) at the UCS-2 level:
    every 16-bit code unit becomes two little-endian octets. -/
def strToBytes (s : List Nat) : List Nat :=
  s.flatMap fun c => [c % 256, c / 256 % 256]

/-- `b.decode('utf_16_le')` (source `_bytes_to_str`) at the UCS-2 level:
    consecutive octet pairs become 16-bit code units.  Python's surrogate-pair
    combination and its decode errors (odd length, unpaired surrogates) are
    not modelled; values stay at the code-unit level, which is the UCS-2
    reading the specification gives. -/
def bytesToStr : List Nat → List Nat
  | b0 :: b1 :: rest => (b0 + 256 * b1) :: bytesToStr rest
  | _ => []

-- -----------------------------------------------------------------------------
-- Protocol constants (source lines 148-228)

def BUFSIZE : Nat := 4096

def TDS_SQL_BATCH : Nat := 1
def TDS_TABULAR_RESULT : Nat := 4
def TDS_TRANSACTION_MANAGER_REQUEST : Nat := 14
def TDS_LOGIN : Nat := 16
def TDS_PRELOGIN : Nat := 18

def TDS_RETURNSTATUS_TOKEN : Nat := 0x79
def TDS_TOKEN_COLMETADATA : Nat := 0x81
def TDS_ORDER_TOKEN : Nat := 0xA9
def TDS_ERROR_TOKEN : Nat := 0xAA
def TDS_INFO_TOKEN : Nat := 0xAB
def TDS_ENVCHANGE_TOKEN : Nat := 0xE3
def TDS_ROW_TOKEN : Nat := 0xD1
def TDS_NBCROW_TOKEN : Nat := 0xD2
def TDS_DONE_TOKEN : Nat := 0xFD
def TDS_DONEPROC_TOKEN : Nat := 0xFE
def TDS_DONEINPROC_TOKEN : Nat := 0xFF

def IMAGETYPE : Nat := 34
def TEXTTYPE : Nat := 35
def GUIDTYPE : Nat := 36
def SYBVARBINARY : Nat := 37
def INTNTYPE : Nat := 38
def INT1TYPE : Nat := 48
def BITTYPE : Nat := 50
def INT2TYPE : Nat := 52
def INT4TYPE : Nat := 56
def DATETIM4TYPE : Nat := 58
def MONEYTYPE : Nat := 60
def DATETIMETYPE : Nat := 61
def FLT8TYPE : Nat := 62
def BITNTYPE : Nat := 104
def NUMERICNTYPE : Nat := 108
def DECIMALNTYPE : Nat := 106
def FLTNTYPE : Nat := 109
def MONEYNTYPE : Nat := 110
def DATETIMNTYPE : Nat := 111
def INT8TYPE : Nat := 127
def BIGCHARTYPE : Nat := 175
def BIGVARCHRTYPE : Nat := 167
def NVARCHARTYPE : Nat := 231
def NCHARTYPE : Nat := 239
def BIGVARBINTYPE : Nat := 165
def BIGBINARYTYPE : Nat := 173
def SSVARIANTTYPE : Nat := 98
def DATENTYPE : Nat := 40
def TIMENTYPE : Nat := 41
def DATETIME2NTYPE : Nat := 42
def DATETIMEOFFSETNTYPE : Nat := 43

-- -----------------------------------------------------------------------------
-- Packet framer: `Connection._send_message` (source lines 1136-1156)

/-- One `self._write(...)` argument of `_send_message`: the 8-byte TDS packet
    header (`type`, `status`, big-endian `length = 8 + len(data)`, big-endian
    `spid = 0`, `packet_id`, `window = 0`) followed by the chunk. -/
def mkPacket (messageType status packetId : Nat) (data : List Nat) : List Nat :=
  [messageType, status] ++ toBytesBE 2 (8 + data.length) ++
    toBytesBE 2 0 ++ [packetId, 0] ++ data

/-- The loop of `Connection._send_message` after the first
    `data, buf = buf[:BUFSIZE-8], buf[BUFSIZE-8:]` split: while the remainder
    is non-empty the current chunk goes out with status 0 and the packet id is
    advanced modulo 256; the final chunk goes out with status 1.  Returns the
    written packets and the final `self._packet_id`. -/
def sendMessageAux (messageType packetId : Nat) (data buf : List Nat) :
    List (List Nat) × Nat :=
  if buf = [] then
    ([mkPacket messageType 1 packetId data], (packetId + 1) % 256)
  else
    let r := sendMessageAux messageType ((packetId + 1) % 256)
      (buf.take (BUFSIZE - 8)) (buf.drop (BUFSIZE - 8))
    (mkPacket messageType 0 packetId data :: r.1, r.2)
termination_by buf.length
decreasing_by
  simp only [List.length_drop, BUFSIZE]
  have : buf.length ≠ 0 := by
    simpa [List.length_eq_zero] using (by assumption : ¬buf = [])
  omega

/-- `Connection._send_message(message_type, buf)` given the session's current
    `self._packet_id`: returns the sequence of byte strings written to the
    socket and the new `self._packet_id`. -/
def sendMessage (messageType packetId : Nat) (buf : List Nat) :
    List (List Nat) × Nat :=
  sendMessageAux messageType packetId (buf.take (BUFSIZE - 8))
    (buf.drop (BUFSIZE - 8))

theorem toBytesBE_two (v : Nat) : toBytesBE 2 v = [v / 256 % 256, v % 256] := by
  simp [toBytesBE, List.range_succ]

theorem mkPacket_eq (mt s pid : Nat) (d : List Nat) :
    mkPacket mt s pid d =
      mt :: s :: (8 + d.length) / 256 % 256 :: (8 + d.length) % 256 ::
        0 :: 0 :: pid :: 0 :: d := by
  simp [mkPacket, toBytesBE_two]

theorem mkPacket_drop_eight (mt s pid : Nat) (d : List Nat) :
    (mkPacket mt s pid d).drop 8 = d := by
  rw [mkPacket_eq]
  rfl

theorem mkPacket_take_two (mt s pid : Nat) (d : List Nat) :
    (mkPacket mt s pid d).take 2 = [mt, s] := by
  rw [mkPacket_eq]
  rfl

theorem mkPacket_len_field (mt s pid : Nat) (d : List Nat)
    (h : d.length ≤ BUFSIZE - 8) :
    beUInt (((mkPacket mt s pid d).drop 2).take 2) = 8 + d.length := by
  rw [mkPacket_eq]
  show (0 * 256 + (8 + d.length) / 256 % 256) * 256 + (8 + d.length) % 256 =
    8 + d.length
  have : d.length ≤ 4088 := by simpa [BUFSIZE] using h
  omega

theorem mkPacket_pid_field (mt s pid : Nat) (d : List Nat) :
    ((mkPacket mt s pid d).drop 6).take 1 = [pid] := by
  rw [mkPacket_eq]
  rfl

/-- Full characterization of the `_send_message` write loop: the emitted
    packet payloads reassemble to `d ++ buf`, each payload is at most
    `BUFSIZE - 8` octets, packet `i` is `mkPacket` of the message type, a
    status byte that is 1 exactly on the last packet, and packet id
    `(packetId + i) % 256`; the final counter advanced once per packet. -/
theorem sendMessageAux_spec (mt pid : Nat) (d buf : List Nat)
    (hpid : pid < 256) (hd : d.length ≤ BUFSIZE - 8) :
    (sendMessageAux mt pid d buf).1 ≠ []
    ∧ ((sendMessageAux mt pid d buf).1.map fun p => p.drop 8).flatten = d ++ buf
    ∧ (∀ p ∈ (sendMessageAux mt pid d buf).1, (p.drop 8).length ≤ BUFSIZE - 8)
    ∧ (∀ i (h : i < (sendMessageAux mt pid d buf).1.length),
        (sendMessageAux mt pid d buf).1[i] =
          mkPacket mt
            (if i = (sendMessageAux mt pid d buf).1.length - 1 then 1 else 0)
            ((pid + i) % 256)
            ((sendMessageAux mt pid d buf).1[i].drop 8))
    ∧ (sendMessageAux mt pid d buf).2 =
        (pid + (sendMessageAux mt pid d buf).1.length) % 256 := by
  by_cases hb : buf = []
  · subst hb
    rw [sendMessageAux]
    rw [if_pos rfl]
    refine ⟨by simp, by simp [mkPacket_drop_eight], ?_, ?_, ?_⟩
    · intro p hp
      simp only [List.mem_singleton] at hp
      subst hp
      simpa [mkPacket_drop_eight] using hd
    · intro i h
      simp only [List.length_singleton] at h
      have hi : i = 0 := by omega
      subst hi
      simp [mkPacket_drop_eight, Nat.mod_eq_of_lt hpid]
    · simp
  · obtain ⟨hne, hjoin, hbound, hidx, hfinal⟩ := sendMessageAux_spec mt
      ((pid + 1) % 256) (buf.take (BUFSIZE - 8)) (buf.drop (BUFSIZE - 8))
      (Nat.mod_lt _ (by norm_num)) (by simp [List.length_take])
    have hsplit : sendMessageAux mt pid d buf =
        (mkPacket mt 0 pid d :: (sendMessageAux mt ((pid + 1) % 256)
            (buf.take (BUFSIZE - 8)) (buf.drop (BUFSIZE - 8))).1,
          (sendMessageAux mt ((pid + 1) % 256)
            (buf.take (BUFSIZE - 8)) (buf.drop (BUFSIZE - 8))).2) := by
      rw [sendMessageAux]
      rw [if_neg hb]
    rw [hsplit]
    generalize hR : sendMessageAux mt ((pid + 1) % 256)
      (buf.take (BUFSIZE - 8)) (buf.drop (BUFSIZE - 8)) = R at hne hjoin hbound hidx hfinal ⊢
    obtain ⟨rest, pid2⟩ := R
    simp only at hne hjoin hbound hidx hfinal ⊢
    have hlen : 1 ≤ rest.length := List.length_pos.mpr hne
    refine ⟨by simp, ?_, ?_, ?_, ?_⟩
    · simp only [List.map_cons, List.flatten_cons, mkPacket_drop_eight]
      rw [hjoin, List.take_append_drop]
    · intro p hp
      rcases List.mem_cons.mp hp with h | h
      · subst h
        simpa [mkPacket_drop_eight] using hd
      · exact hbound p h
    · intro i h
      cases i with
      | zero =>
        have hne0 : ¬(0 = (mkPacket mt 0 pid d :: rest).length - 1) := by
          simp only [List.length_cons]
          omega
        simp only [List.getElem_cons_zero, if_neg hne0, Nat.add_zero,
          Nat.mod_eq_of_lt hpid, mkPacket_drop_eight]
      | succ j =>
        have hj : j < rest.length := by
          simpa using h
        have hthis := hidx j hj
        have hcond : (j + 1 = (mkPacket mt 0 pid d :: rest).length - 1) ↔
            (j = rest.length - 1) := by
          simp only [List.length_cons]
          omega
        have hpidshift : ((pid + 1) % 256 + j) % 256 = (pid + (j + 1)) % 256 := by
          omega
        rw [hpidshift] at hthis
        simp only [List.getElem_cons_succ]
        rw [if_congr hcond rfl rfl]
        exact hthis
    · simp only [List.length_cons]
      rw [hfinal]
      omega
termination_by buf.length
decreasing_by
  simp only [List.length_drop, BUFSIZE]
  have : buf.length ≠ 0 := by
    simpa [List.length_eq_zero] using hb
  omega

/-- C1: for every message type and payload, `Connection._send_message` emits
    packets whose payloads concatenate to exactly the original payload, each
    payload at most `packet_size - 8 = 4088` bytes; every packet's byte 0 is
    the message type, its status byte is 1 exactly on the last packet and 0
    before, its bytes 2-3 are the big-endian value `8 + payload length`, its
    byte 6 is the packet id `(packetId + i) % 256`; the session counter is
    advanced once per packet. -/
theorem send_message_framing (mt pid : Nat) (buf : List Nat)
    (hpid : pid < 256) :
    ((sendMessage mt pid buf).1.map fun p => p.drop 8).flatten = buf
    ∧ (∀ p ∈ (sendMessage mt pid buf).1, (p.drop 8).length ≤ BUFSIZE - 8)
    ∧ (∀ i (h : i < (sendMessage mt pid buf).1.length),
        (sendMessage mt pid buf).1[i].take 2 =
          [mt, if i = (sendMessage mt pid buf).1.length - 1 then 1 else 0]
        ∧ beUInt (((sendMessage mt pid buf).1[i].drop 2).take 2) =
            8 + ((sendMessage mt pid buf).1[i].drop 8).length
        ∧ ((sendMessage mt pid buf).1[i].drop 6).take 1 = [(pid + i) % 256])
    ∧ (sendMessage mt pid buf).2 =
        (pid + (sendMessage mt pid buf).1.length) % 256 := by
  obtain ⟨hne, hjoin, hbound, hidx, hfinal⟩ := sendMessageAux_spec mt pid
    (buf.take (BUFSIZE - 8)) (buf.drop (BUFSIZE - 8)) hpid
    (by simp [List.length_take])
  simp only [sendMessage]
  refine ⟨?_, hbound, ?_, hfinal⟩
  · rw [hjoin, List.take_append_drop]
  · intro i h
    have hmem := List.getElem_mem h
    have hble := hbound _ hmem
    refine ⟨?_, ?_, ?_⟩
    · conv_lhs => rw [hidx i h]
      rw [mkPacket_take_two]
    · conv_lhs => rw [hidx i h]
      rw [mkPacket_len_field _ _ _ _ hble]
    · conv_lhs => rw [hidx i h]
      rw [mkPacket_pid_field]

/-- Witness for C1 at message type 1, packet id 7, payload `[1, 2, 3]`. -/
theorem send_message_framing_witness :
    (7 : Nat) < 256 ∧
    ((sendMessage 1 7 [1, 2, 3]).1.map fun p => p.drop 8).flatten = [1, 2, 3] :=
  ⟨by norm_num, (send_message_framing 1 7 [1, 2, 3] (by norm_num)).1⟩

-- -----------------------------------------------------------------------------
-- Parser primitives (source lines 507-556)

/-- A raised Python exception, by kind: `IndexError` from `data[0]` on empty
    data, a failing `assert`, `raise Error("... Unknown type %d")`,
    `raise ValueError("Unknown token: ...")` in `_execute`, tuple-unpacking of
    the bare `[]` that `parse_description` returns for `num_cols == -1`,
    `ValueError`/`OverflowError` from `uuid.UUID`/`datetime` constructors,
    `struct.error` from a short `struct.unpack` buffer, and exhaustion of the
    fuel bounding the PLP chunk loop. -/
inductive PErr where
  | indexError
  | assertionError
  | unknownType (t : Nat)
  | unknownToken (t : Nat)
  | unpackError
  | valueError
  | decodeError
  | fuelExhausted
deriving DecidableEq, Repr

/-- A decoded column value.  Host-language artifacts are kept at the wire
    level: floats keep their IEEE-754 octets; `Decimal` results keep the
    exact (numerator, scale) pair the source divides (`v / 10 ** scale`);
    date-times keep the pieces the source feeds `datetime`/`timedelta`
    (`datetime(1900, 1, 1) + timedelta(days, seconds, milliseconds)` for the
    300 Hz types, date days since 0001-01-01 otherwise); strings in the
    server encoding keep their octets; UCS-2 strings are code-unit lists. -/
inductive Value where
  | null
  | int (v : Int)
  | float (b : List Nat)
  | decimal (num : Int) (scale : Int)
  | str (units : List Nat)
  | encStr (b : List Nat)
  | bytes (b : List Nat)
  | datetime (days : Int) (seconds : Int) (ms : Int)
  | date (days : Nat)
  | time (h m s us : Nat)
  | datetime2 (days : Nat) (h m s us : Nat)
  | datetimeoffset (days : Nat) (h m s us : Nat) (offsetMinutes : Int)
  | uuid (b : List Nat)
deriving DecidableEq, Repr

/-- `_parse_byte`: `data[0], data[1:]`; `IndexError` on empty data. -/
def _parse_byte : List Nat → Except PErr (Nat × List Nat)
  | [] => .error .indexError
  | b :: rest => .ok (b, rest)

/-- `_parse_int(data, ln)`: `int(data[:ln])` (little-endian signed) and the
    rest.  The length is an `Int` because the source calls it with `ln - 1`
    where `ln` may be 0 (a negative Python slice index). -/
def _parse_int (data : List Nat) (ln : Int) : Int × List Nat :=
  (leSInt (pyTake ln data), pyDrop ln data)

/-- `_parse_uint(data, ln)`: little-endian unsigned. -/
def _parse_uint (data : List Nat) (ln : Int) : Nat × List Nat :=
  (leUInt (pyTake ln data), pyDrop ln data)

/-- `_parse_collation`: 5 octets, skipped. -/
def _parse_collation (data : List Nat) : List Nat × List Nat :=
  (data.take 5, data.drop 5)

/-- `_parse_str(data, ln)`: a `ln`-octet character count, then twice that
    many octets of UCS-2. -/
def _parse_str (data : List Nat) (ln : Int) : List Nat × List Nat :=
  let r := _parse_uint data ln
  (bytesToStr (r.2.take (r.1 * 2)), r.2.drop (r.1 * 2))

/-- `_parse_uuid`: `uuid.UUID(bytes_le=data[:ln])` raises `ValueError`
    unless it gets exactly 16 octets. -/
def _parse_uuid (data : List Nat) (ln : Int) : Except PErr (Value × List Nat) :=
  if (pyTake ln data).length = 16 then
    .ok (.uuid (pyTake ln data), pyDrop ln data)
  else .error .valueError

-- -----------------------------------------------------------------------------
-- Date/time codecs (source lines 278-292)

/-- The components handed to `datetime.time(...)`. -/
structure TimeOfDay where
  h : Nat
  m : Nat
  s : Nat
  us : Nat
deriving DecidableEq, Repr

/-- `_convert_time(b, precision)` (source lines 278-288): the payload is an
    unsigned little-endian count of `10 ^ (7 - precision)`-hundred-nanosecond
    units since midnight, decomposed by integer division into hours, minutes,
    seconds and microseconds.  A precision above 7 would send the Python
    original through float arithmetic (`10 ** (7 - precision)` is a float
    then) and fail constructing `datetime.time`; `datetime.time` also raises
    for 24 hours or more. -/
def _convert_time (b : List Nat) (precision : Int) : Except PErr TimeOfDay :=
  if 7 < precision then .error .decodeError
  else
    let v := leUInt b * 10 ^ (7 - precision).toNat
    let nanoseconds := v * 100
    let hours := nanoseconds / 1000000000 / 60 / 60
    let n1 := nanoseconds - hours * 60 * 60 * 1000000000
    let minutes := n1 / 1000000000 / 60
    let n2 := n1 - minutes * 60 * 1000000000
    let seconds := n2 / 1000000000
    let n3 := n2 - seconds * 1000000000
    if 24 ≤ hours then .error .valueError
    else .ok ⟨hours, minutes, seconds, n3 / 1000⟩

/-- `_convert_date(b)`: `(datetime(1, 1, 1) + timedelta(days=uint(b))).date()`;
    the addition overflows past year 9999 (day 3652058). -/
def _convert_date (b : List Nat) : Except PErr Nat :=
  if 3652058 < leUInt b then .error .valueError
  else .ok (leUInt b)

/-- The 300 Hz millisecond conversion that the current revision's
    DATETIME/DATETIM4/DATETIMN decoders (and `_parse_variant`'s DATETIME
    case) all spell as `t % 300 * 10 // 3` — Python's floor `%` and `//`,
    which for these positive divisors coincide with Lean's euclidean `%`
    and `/` on `Int`. -/
def datetimeMs (t : Int) : Int :=
  t % 300 * 10 / 3

/-- The corresponding computation of the repository's older single-file
    revision (`minitds.py` line 692): `int(round(t % 300 * 10 / 3.0))` —
    rounding to nearest instead of truncating.  For `0 ≤ r < 300` the float
    quotient `r * 10 / 3.0` is never half-integral (its exact fractional part
    is 0, 1/3 or 2/3, and the float rounding error cannot reach the
    midpoint), so Python's banker's rounding equals rounding the exact
    rational to the nearest integer, `⌊(10 r + 1) / 3⌋`. -/
def datetimeMsOld (t : Int) : Int :=
  (t % 300 * 10 + 1) / 3

-- -----------------------------------------------------------------------------
-- Column value decoder: `_parse_variant`, `_parse_column`
-- (source lines 528-550 and 629-842)

/-- The PLP chunk loop inside the NVARCHAR branch of `_parse_column`
    (source lines 717-721): `while ln2: v2, data = data[:ln2], data[ln2:];
    v += v2; ln2, data = _parse_int(data, 4)`.  The fuel only bounds the
    recursion; called with `data.length + 2` it covers every terminating
    Python execution, since each pass either consumes at least four octets
    or empties the buffer. -/
def plpChunks (fuel : Nat) (v data : List Nat) (ln2 : Int) :
    Except PErr (List Nat × List Nat) :=
  match fuel with
  | 0 => .error .fuelExhausted
  | fuel + 1 =>
    if ln2 = 0 then .ok (v, data)
    else
      let v2 := pyTake ln2 data
      let data1 := pyDrop ln2 data
      let r := _parse_int data1 4
      plpChunks fuel (v ++ v2) r.2 r.1

/-- `_parse_variant(data, ln)` (source lines 528-550): an inner
    `{type:1, prop:1, value}` parsed out of the first `ln` octets; the outer
    cursor advances by `ln` regardless. -/
def _parse_variant (data : List Nat) (ln : Int) :
    Except PErr (Value × List Nat) := do
  let data2 := pyTake ln data
  let dataRest := pyDrop ln data
  let (type_id, data2) ← _parse_byte data2
  let (_prop_bytes, data2) ← _parse_byte data2
  if type_id = INT1TYPE then
    return (.int (_parse_int data2 1).1, dataRest)
  else if type_id = INT2TYPE then
    return (.int (_parse_int data2 2).1, dataRest)
  else if type_id = INT4TYPE then
    return (.int (_parse_int data2 4).1, dataRest)
  else if type_id = NVARCHARTYPE then
    let data2 := (_parse_collation data2).2
    return (.str (_parse_str data2 2).1, dataRest)
  else if type_id = DATETIMETYPE then
    let rd := _parse_int data2 4
    let rt := _parse_int rd.2 4
    let t := rt.1
    return (.datetime rd.1 (t / 300) (datetimeMs t), dataRest)
  else
    .error (.unknownType type_id)

/-- `_parse_column(name, type_id, size, precision, scale, encoding, data)`
    (source lines 629-842): decode one value.  `encoding` is the opaque
    server encoding tag (its byte-to-text table is not interpreted; values
    decoded with it keep their octets).  The `datetime` range of the host
    (`datetime.datetime` overflow on absurd day counts) is not modelled in
    the 300 Hz branches. -/
def _parse_column (_name : List Nat) (type_id : Nat)
    (size precision scale : Int) (_encoding : Nat) (data : List Nat) :
    Except PErr (Value × List Nat) :=
  if type_id = INT1TYPE ∨ type_id = BITTYPE ∨ type_id = INT2TYPE ∨
      type_id = INT4TYPE ∨ type_id = INT8TYPE then
    let r := _parse_int data size
    .ok (.int r.1, r.2)
  else if type_id = FLT8TYPE then
    -- struct.unpack("d", data[:size]) needs exactly 8 octets
    if (pyTake size data).length = 8 then
      .ok (.float (pyTake size data), pyDrop size data)
    else .error .decodeError
  else if type_id = BITNTYPE then do
    let (ln, data) ← _parse_byte data
    if ln = 0 then return (.null, data)
    else if (ln : Int) ≠ size then .error .assertionError
    else
      let r := _parse_int data ln
      return (.int r.1, r.2)
  else if type_id = INTNTYPE then do
    let (ln, data) ← _parse_byte data
    if ln = 0 then return (.null, data)
    else if (ln : Int) ≠ size then .error .assertionError
    else
      let r := _parse_int data ln
      return (.int r.1, r.2)
  else if type_id = MONEYNTYPE then do
    let (ln, data) ← _parse_byte data
    if ln = 0 then return (.null, data)
    else if (ln : Int) ≠ size then .error .assertionError
    else
      let rhi := _parse_int data (ln / 2)
      let rlo := _parse_uint rhi.2 (ln / 2)
      return (.decimal (rhi.1 * 2 ^ 32 + rlo.1) 4, rlo.2)
  else if type_id = FLTNTYPE then do
    let (ln, data) ← _parse_byte data
    if ln = 0 then return (.null, data)
    else if (ln : Int) ≠ size then .error .assertionError
    else
      -- struct.unpack('<d' if ln == 8 else '<f', v)
      if (pyTake size data).length = (if ln = 8 then 8 else 4) then
        return (.float (pyTake size data), pyDrop size data)
      else .error .decodeError
  else if type_id = IMAGETYPE ∨ type_id = TEXTTYPE then do
    let (ln, data) ← _parse_byte data
    if ln = 0 then return (.null, data)
    else
      let r := _parse_int data 4
      let v := pyTake r.1 r.2
      let data := pyDrop r.1 r.2
      if type_id = TEXTTYPE then return (.str (bytesToStr v), data)
      else return (.bytes v, data)
  else if type_id = NUMERICNTYPE ∨ type_id = DECIMALNTYPE then do
    let (ln, data) ← _parse_byte data
    let (positive, data) ← _parse_byte data
    let r := _parse_int data ((ln : Int) - 1)
    return (.decimal (if positive = 0 then -r.1 else r.1) scale, r.2)
  else if type_id = SYBVARBINARY then do
    let r := _parse_int data 2
    let ln := r.1
    let data := r.2
    if ln = -1 then do
      let (b, data) ← _parse_byte data
      if b = 0xff then return (.null, data) else .error .assertionError
    else
      return (.bytes (pyTake ln data), pyDrop ln data)
  else if type_id = NCHARTYPE then do
    if size = -1 then do
      let r := _parse_int data 2
      let ln := r.1
      let data := r.2
      -- in the null case the source asserts 0xff and advances, but then
      -- still falls through to `v, data = data[:ln], data[ln:]` below
      let data ← (do
        if ln = -1 then do
          let (b, data) ← _parse_byte data
          if b = 0xff then return data else .error .assertionError
        else return (pyDrop 10 data))
      return (.str (bytesToStr (pyTake ln data)), pyDrop ln data)
    else
      let r := _parse_int data 2
      let ln := r.1
      let data := r.2
      return (.str (bytesToStr (pyTake ln data)), pyDrop ln data)
  else if type_id = NVARCHARTYPE then do
    if size = -1 then do
      let r := _parse_int data 2
      let ln := r.1
      let data := r.2
      if ln = -1 then do
        let (b, data) ← _parse_byte data
        if b = 0xff then return (.null, data) else .error .assertionError
      else if data.take 6 = [0, 0, 0, 0, 0, 0] then do
        let data := data.drop 6
        let r2 := _parse_int data 4
        let (v, data) ← plpChunks (data.length + 2) [] r2.2 r2.1
        if (ln : Int) ≠ (v.length : Int) then .error .assertionError
        else return (.str (bytesToStr v), data)
      else
        let data := pyDrop ln data
        let r3 := _parse_int data 2
        let data := pyDrop r3.1 r3.2
        let data := if r3.1 % 2 ≠ 0 then pyDrop 1 data else data
        let r4 := _parse_int data 2
        let data := pyDrop r4.1 r4.2
        let data := pyDrop 4 data
        let r5 := _parse_int data 4
        let v := pyTake r5.1 r5.2
        let data := pyDrop r5.1 r5.2
        return (.str (bytesToStr v), pyDrop 4 data)
    else
      let r := _parse_int data 2
      let ln := r.1
      let data := r.2
      if ln = -1 then return (.null, data)
      else return (.str (bytesToStr (pyTake ln data)), pyDrop ln data)
  else if type_id = BIGCHARTYPE then
    let ln := leSInt (data.take 2)
    let data := data.drop 2
    if ln < 0 then .ok (.null, data)
    else .ok (.encStr (pyTake ln data), pyDrop ln data)
  else if type_id = BIGVARCHRTYPE ∨ type_id = BIGVARBINTYPE then do
    let (v, data) ← (do
      if size = -1 then
        let r := _parse_int data 8
        let ln := r.1
        let data := r.2
        if ln < 0 then return ((none : Option (List Nat)), data)
        else
          let r2 := if ln > 0 then _parse_int data 4 else (ln, data)
          let v := pyTake r2.1 r2.2
          let data := pyDrop r2.1 r2.2
          return (some v, pyDrop 4 data)
      else
        let ln := leSInt (data.take 2)
        let data := data.drop 2
        if ln < 0 then return ((none : Option (List Nat)), data)
        else return (some (pyTake ln data), pyDrop ln data))
    match v with
    | none => return (.null, data)
    | some b =>
      if type_id = BIGVARCHRTYPE then return (.encStr b, data)
      else return (.bytes b, data)
  else if type_id = DATETIM4TYPE ∨ type_id = DATETIMETYPE then
    let rd := _parse_int data (size / 2)
    let rt := _parse_int rd.2 (size / 2)
    let t := rt.1
    .ok (.datetime rd.1 (t / 300) (datetimeMs t), rt.2)
  else if type_id = DATETIME2NTYPE then do
    let (ln, data) ← _parse_byte data
    if ln = 0 then return (.null, data)
    else
      let tb := pyTake ((ln : Int) - 3) data
      let data := pyDrop ((ln : Int) - 3) data
      let t ← _convert_time tb precision
      let db := pyTake 3 data
      let data := pyDrop 3 data
      let d ← _convert_date db
      return (.datetime2 d t.h t.m t.s t.us, data)
  else if type_id = DATETIMNTYPE then do
    let (ln, data) ← _parse_byte data
    if ln = 0 then return (.null, data)
    else if (ln : Int) ≠ size then .error .assertionError
    else
      let rd := _parse_int data (ln / 2)
      let rt := _parse_int rd.2 (ln / 2)
      let t := rt.1
      return (.datetime rd.1 (t / 300) (datetimeMs t), rt.2)
  else if type_id = DATETIMEOFFSETNTYPE then do
    let (ln, data) ← _parse_byte data
    if ln = 0 then return (.null, data)
    else
      let tb := pyTake ((ln : Int) - 5) data
      let data := pyDrop ((ln : Int) - 5) data
      let t ← _convert_time tb precision
      let db := pyTake 3 data
      let data := pyDrop 3 data
      let d ← _convert_date db
      let tzb := pyTake 2 data
      let data := pyDrop 2 data
      -- the source then shifts by `_min_timezone_offset() + tz_offset`
      -- minutes and stamps UTC; the host-environment offset is not part of
      -- the wire value, so the parsed pieces are kept
      return (.datetimeoffset d t.h t.m t.s t.us (leSInt tzb), data)
  else if type_id = DATENTYPE then do
    let (ln, data) ← _parse_byte data
    if ln = 0 then return (.null, data)
    else
      let d ← _convert_date (pyTake ln data)
      return (.date d, pyDrop ln data)
  else if type_id = TIMENTYPE then do
    let (ln, data) ← _parse_byte data
    if ln = 0 then return (.null, data)
    else
      let t ← _convert_time (pyTake ln data) precision
      return (.time t.h t.m t.s t.us, pyDrop ln data)
  else if type_id = SSVARIANTTYPE then do
    let r := _parse_int data 4
    if r.1 = 0 then return (.null, r.2)
    else _parse_variant r.2 r.1
  else if type_id = GUIDTYPE then do
    let (ln, data) ← _parse_byte data
    if ln = 0 then return (.null, data)
    else if (ln : Int) ≠ size then .error .assertionError
    else _parse_uuid data ln
  else
    .error (.unknownType type_id)

-- -----------------------------------------------------------------------------
-- Request encoders: `get_prelogin_bytes`, `get_login_bytes`
-- (source lines 295-424)

/-- `get_prelogin_bytes(use_ssl, instance_name)` (source lines 295-330):
    the 26-byte option table (`assert len(buf) == 26` in the source holds by
    construction), then the option payloads.  `instanceName` is the ASCII
    octet string of the caller's instance name (the source appends the zero
    terminator itself); `pid` stands for `os.getpid()`. -/
def get_prelogin_bytes (use_ssl : Option Bool) (instanceName : List Nat)
    (pid : Nat) : List Nat :=
  let iname := instanceName ++ [0]
  [0x00] ++ toBytesBE 2 26 ++ toBytesBE 2 6 ++
  [0x01] ++ toBytesBE 2 32 ++ toBytesBE 2 1 ++
  [0x02] ++ toBytesBE 2 33 ++ toBytesBE 2 iname.length ++
  [0x03] ++ toBytesBE 2 (33 + iname.length) ++ toBytesBE 2 4 ++
  [0x04] ++ toBytesBE 2 (37 + iname.length) ++ toBytesBE 2 1 ++
  [0xff] ++
  [0, 0, 5, 2] ++ toBytesBE 2 0 ++
  (match use_ssl with
   | none => [0x03]
   | some true => [0x01]
   | some false => [0x02]) ++
  iname ++
  toBytesBE 4 pid ++
  [0x00]

/-- The UCS-2 code units of the constant `"minitds"` (the `app_name` and
    `lib_name` strings of `get_login_bytes`). -/
def appNameUnits : List Nat := [109, 105, 110, 105, 116, 100, 115]

/-- The password obfuscation of `get_login_bytes` (source line 415):
    `((c << 4) & 0xff | (c >> 4)) ^ 0xa5` per UCS-2 octet (Python binds `&`
    tighter than `|`). -/
def pwObfuscate (c : Nat) : Nat :=
  (((c <<< 4) &&& 0xff) ||| (c >>> 4)) ^^^ 0xa5

/-- The fixed 94-octet header of the LOGIN7 message (source lines 343-411):
    lengths, versions, ids, flags, the offset/length table and the 6-byte
    client MAC.  `pos*` are the running offsets the source threads through
    `pos`; `tz` stands for `_min_timezone_offset()` and `node` for
    `uuid.getnode()`. -/
def login_header (packet_size pid tz lcid : Nat)
    (clientLen userLen passwordLen hostLen databaseLen : Nat) (node : Nat) :
    List Nat :=
  let pos1 := 94 + clientLen * 2
  let pos2 := pos1 + userLen * 2
  let pos3 := pos2 + passwordLen * 2
  let pos4 := pos3 + appNameUnits.length * 2
  let pos5 := pos4 + hostLen * 2
  let pos6 := pos5 + appNameUnits.length * 2
  let pos7 := pos6 + 0 * 2
  let pos8 := pos7 + databaseLen * 2
  toBytesLE 4 packet_size ++
  [0x04, 0x00, 0x00, 0x74] ++
  toBytesLE 4 BUFSIZE ++
  [0, 0, 5, 2] ++
  toBytesLE 4 pid ++
  toBytesLE 4 0 ++
  [0x20 ||| 0x40 ||| 0x80, 0x02, 0, 0x80] ++
  toBytesLE 4 tz ++
  toBytesLE 4 lcid ++
  toBytesLE 2 94 ++ toBytesLE 2 clientLen ++
  toBytesLE 2 pos1 ++ toBytesLE 2 userLen ++
  toBytesLE 2 pos2 ++ toBytesLE 2 passwordLen ++
  toBytesLE 2 pos3 ++ toBytesLE 2 appNameUnits.length ++
  toBytesLE 2 pos4 ++ toBytesLE 2 hostLen ++
  toBytesLE 2 0 ++ toBytesLE 2 0 ++
  toBytesLE 2 pos5 ++ toBytesLE 2 appNameUnits.length ++
  toBytesLE 2 pos6 ++ toBytesLE 2 0 ++
  toBytesLE 2 pos7 ++ toBytesLE 2 databaseLen ++
  toBytesBE 6 node ++
  toBytesLE 2 pos8 ++ toBytesLE 2 0 ++
  toBytesLE 2 pos8 ++ toBytesLE 2 0 ++
  toBytesLE 2 pos8 ++ toBytesLE 2 0 ++
  toBytesLE 4 0

/-- `get_login_bytes(host, user, password, database, lcid)` (source lines
    333-424): the 94-octet header followed by the UCS-2 string data in source
    order — client host name, user, obfuscated password, application name,
    server host, library name, language (empty), database, db-file (empty),
    new password (empty).  Strings are lists of UCS-2 code units;
    `client_name` stands for `socket.gethostname()[:128]`. -/
def get_login_bytes (host user password database : List Nat) (lcid : Nat)
    (client_name : List Nat) (pid tz node : Nat) : List Nat :=
  login_header
    (94 + (client_name.length + appNameUnits.length + host.length +
      user.length + password.length + appNameUnits.length + 0 +
      database.length + 0) * 2)
    pid tz lcid client_name.length user.length password.length host.length
    database.length node ++
  strToBytes client_name ++
  strToBytes user ++
  (strToBytes password).map pwObfuscate ++
  strToBytes appNameUnits ++
  strToBytes host ++
  strToBytes appNameUnits ++
  strToBytes [] ++
  strToBytes database ++
  strToBytes [] ++
  strToBytes []

-- -----------------------------------------------------------------------------
-- Error classification: `Connection.parse_error` (source lines 1171-1180)

/-- The driver's server-error classes. -/
inductive ExcKind where
  | programming
  | integrity
  | operational
deriving DecidableEq, Repr

/-- A classified server error.  The Python constructor receives the single
    string `"{err_num}:{message}:{query}"` plus `err_num`; the three pieces
    of that string are carried separately here. -/
structure DBError where
  kind : ExcKind
  errNum : Int
  message : List Nat
  query : List Nat
deriving DecidableEq, Repr

/-- `Connection.parse_error(query, data)` (source lines 1171-1180): after
    the `assert data[0] == TDS_ERROR_TOKEN`, the 4-octet error number at
    offset 3 picks the exception class — ProgrammingError for
    {102, 207, 208, 2812, 4104}, IntegrityError for {515, 547, 2601, 2627},
    OperationalError otherwise — and the UCS-2 message text at offset 11
    (length from offset 9) rides along with the failing query. -/
def parse_error (query : List Nat) (data : List Nat) :
    Except PErr DBError :=
  match data with
  | [] => .error .indexError
  | t :: _ =>
    if t ≠ TDS_ERROR_TOKEN then .error .assertionError
    else
      let err_num := leSInt (pySlice 3 7 data)
      let msg_ln := leSInt (pySlice 9 11 data)
      let message := bytesToStr (pySlice 11 (msg_ln * 2 + 11) data)
      if err_num = 102 ∨ err_num = 207 ∨ err_num = 208 ∨ err_num = 2812 ∨
          err_num = 4104 then
        .ok ⟨.programming, err_num, message, query⟩
      else if err_num = 515 ∨ err_num = 547 ∨ err_num = 2601 ∨
          err_num = 2627 then
        .ok ⟨.integrity, err_num, message, query⟩
      else
        .ok ⟨.operational, err_num, message, query⟩

-- -----------------------------------------------------------------------------
-- Column metadata: `_parse_description_type`, `parse_description`
-- (source lines 559-626)

/-- One column descriptor as accumulated by `parse_description`:
    `(name, type_id, size, size, precision, scale, null_ok)`. -/
structure Col where
  name : List Nat
  type_id : Nat
  size : Int
  display_size : Int
  precision : Int
  scale : Int
  null_ok : Bool
deriving DecidableEq, Repr

/-- `_parse_description_type(data)` (source lines 559-612): user type and
    flags, the type id, then per-type metadata — `size` from a fixed table
    for the fixed-width types (default 0), otherwise parsed, with precision
    and scale for decimals and precision for the fractional date-time types;
    finally the column name.  `precision`/`scale` default to -1. -/
def _parse_description_type (data : List Nat) :
    Except PErr (Col × List Nat) := do
  let r0 := _parse_uint data 4
  let r1 := _parse_uint r0.2 2
  let flags := r1.1
  let null_ok := flags &&& 1 = 1
  let (type_id, data) ← _parse_byte r1.2
  let size0 : Int :=
    if type_id = INT1TYPE then 1
    else if type_id = BITTYPE then 1
    else if type_id = INT2TYPE then 2
    else if type_id = INT4TYPE then 4
    else if type_id = INT8TYPE then 8
    else if type_id = FLT8TYPE then 8
    else if type_id = DATETIM4TYPE then 4
    else if type_id = DATETIMETYPE then 8
    else if type_id = DATENTYPE then 3
    else 0
  let (size, precision, scale, data) ← (do
    if size0 ≠ 0 then
      return (size0, -1, -1, data)
    else if type_id = BITNTYPE ∨ type_id = INTNTYPE ∨ type_id = FLTNTYPE ∨
        type_id = MONEYNTYPE ∨ type_id = DATETIMNTYPE then do
      let (s, data) ← _parse_byte data
      return ((s : Int), -1, -1, data)
    else if type_id = IMAGETYPE ∨ type_id = TEXTTYPE then do
      let (s, data) ← _parse_byte data
      let r := _parse_int data 4
      let rt := _parse_str r.2 2
      return ((s : Int), -1, -1, rt.2)
    else if type_id = NUMERICNTYPE ∨ type_id = DECIMALNTYPE then do
      let (s, data) ← _parse_byte data
      let (p, data) ← _parse_byte data
      let (sc, data) ← _parse_byte data
      return ((s : Int), (p : Int), (sc : Int), data)
    else if type_id = SYBVARBINARY then
      let r := _parse_int data 2
      return (r.1, -1, -1, r.2)
    else if type_id = BIGCHARTYPE ∨ type_id = BIGVARCHRTYPE ∨
        type_id = NCHARTYPE ∨ type_id = NVARCHARTYPE then
      let r := _parse_int data 2
      return (r.1, -1, -1, (_parse_collation r.2).2)
    else if type_id = DATETIME2NTYPE ∨ type_id = DATETIMEOFFSETNTYPE ∨
        type_id = TIMENTYPE then do
      let (p, data) ← _parse_byte data
      return (size0, (p : Int), -1, data)
    else if type_id = SSVARIANTTYPE then
      let r := _parse_int data 4
      return (r.1, -1, -1, r.2)
    else if type_id = BIGVARBINTYPE then
      let r := _parse_int data 2
      return (r.1, -1, -1, r.2)
    else if type_id = BIGBINARYTYPE then
      let r := _parse_int data 2
      return (r.1, -1, -1, r.2)
    else if type_id = GUIDTYPE then
      let r := _parse_int data 1
      return (r.1, -1, -1, r.2)
    else
      -- unknown type id: only a debug print; size stays 0
      return (size0, -1, -1, data))
  let rn := _parse_str data 1
  return (⟨rn.1, type_id, size, size, precision, scale, null_ok⟩, rn.2)

/-- The `for i in range(num_cols)` loop of `parse_description`. -/
def parse_description_cols (n : Nat) (data : List Nat) :
    Except PErr (List Col × List Nat) :=
  match n with
  | 0 => .ok ([], data)
  | n + 1 => do
    let (c, data) ← _parse_description_type data
    let (rest, data) ← parse_description_cols n data
    return (c :: rest, data)

/-- `parse_description(data)` (source lines 615-626).  For
    `num_cols == -1` the source returns a bare `[]`, which the caller's
    `description, data = parse_description(data)` unpacking turns into a
    raised `ValueError`; other negative counts give an empty loop. -/
def parse_description (data : List Nat) :
    Except PErr (List Col × List Nat) := do
  let (t, _) ← _parse_byte data
  if t ≠ TDS_TOKEN_COLMETADATA then .error .assertionError
  else
    let num_cols := leSInt (pySlice 1 3 data)
    if num_cols = -1 then .error .unpackError
    else parse_description_cols num_cols.toNat (pyDrop 3 data)

-- -----------------------------------------------------------------------------
-- Row decoding: `parse_row`, `parse_nbcrow` (source lines 845-870)

/-- The per-column loop of `parse_row`: one `_parse_column` call per
    descriptor, in metadata order. -/
def parse_row_cols (description : List Col) (encoding : Nat)
    (data : List Nat) : Except PErr (List Value × List Nat) :=
  match description with
  | [] => .ok ([], data)
  | c :: rest => do
    let (v, data) ← _parse_column c.name c.type_id c.size c.precision c.scale
      encoding data
    let (row, data) ← parse_row_cols rest encoding data
    return (v :: row, data)

/-- `parse_row(description, encoding, data)` (source lines 845-853). -/
def parse_row (description : List Col) (encoding : Nat) (data : List Nat) :
    Except PErr (List Value × List Nat) := do
  let (t, data) ← _parse_byte data
  if t ≠ TDS_ROW_TOKEN then .error .assertionError
  else parse_row_cols description encoding data

/-- The `for i, (...) in enumerate(description)` loop of `parse_nbcrow`:
    `null_bitmap[i // 8] & (1 << (i % 8))` selects null columns, which
    consume no value bytes. -/
def parse_nbcrow_cols (description : List Col) (i : Nat)
    (null_bitmap : List Nat) (encoding : Nat) (data : List Nat) :
    Except PErr (List Value × List Nat) :=
  match description with
  | [] => .ok ([], data)
  | c :: rest => do
    let b ← (match null_bitmap[i / 8]? with
      | some b => Except.ok b
      | none => Except.error PErr.indexError)
    if b &&& (1 <<< (i % 8)) ≠ 0 then do
      let (row, data) ← parse_nbcrow_cols rest (i + 1) null_bitmap encoding data
      return (Value.null :: row, data)
    else do
      let (v, data) ← _parse_column c.name c.type_id c.size c.precision
        c.scale encoding data
      let (row, data) ← parse_nbcrow_cols rest (i + 1) null_bitmap encoding data
      return (v :: row, data)

/-- `parse_nbcrow(description, encoding, data)` (source lines 855-870):
    the token byte, then `(len(description) + 7) // 8` bitmap octets, then
    the non-null column values. -/
def parse_nbcrow (description : List Col) (encoding : Nat)
    (data : List Nat) : Except PErr (List Value × List Nat) := do
  let (t, data) ← _parse_byte data
  if t ≠ TDS_NBCROW_TOKEN then .error .assertionError
  else
    let null_bitmap_len := (description.length + 7) / 8
    let null_bitmap := data.take null_bitmap_len
    let data := data.drop null_bitmap_len
    parse_nbcrow_cols description 0 null_bitmap encoding data

/-- Modelled from the spec's words, for comparison with `parse_nbcrow`
    (claim C8): after the NBCROW tag, exactly `⌈ncols/8⌉` bitmap octets are
    consumed; column `i` is null — consuming no value bytes — exactly when
    bit `i % 8` (least-significant first) of bitmap octet `i / 8` is set,
    and is otherwise decoded by the column decoder, in metadata order. -/
def parse_nbcrow_spec_cols (description : List Col) (i : Nat)
    (bitmap : List Nat) (encoding : Nat) (data : List Nat) :
    Except PErr (List Value × List Nat) :=
  match description with
  | [] => .ok ([], data)
  | c :: rest =>
    if Nat.testBit (bitmap.getD (i / 8) 0) (i % 8) then do
      let (row, data) ← parse_nbcrow_spec_cols rest (i + 1) bitmap encoding data
      return (Value.null :: row, data)
    else do
      let (v, data) ← _parse_column c.name c.type_id c.size c.precision
        c.scale encoding data
      let (row, data) ← parse_nbcrow_spec_cols rest (i + 1) bitmap encoding data
      return (v :: row, data)

/-- Modelled from the spec's words (claim C8): the NBCROW row shape. -/
def parse_nbcrow_spec (description : List Col) (encoding : Nat)
    (data : List Nat) : Except PErr (List Value × List Nat) :=
  match data with
  | [] => .error .indexError
  | t :: rest =>
    if t ≠ TDS_NBCROW_TOKEN then .error .assertionError
    else
      parse_nbcrow_spec_cols description 0
        (rest.take ((description.length + 7) / 8)) encoding
        (rest.drop ((description.length + 7) / 8))

-- -----------------------------------------------------------------------------
-- Response token loop of `Connection._execute` (source lines 1188-1243)

/-- An exception escaping `_execute`: either the classified `DBError` the
    ERROR branch raises, or a Python-level error from a sub-parser
    (including the `ValueError("Unknown token: ...")` of the final branch,
    modelled as `PErr.unknownToken`). -/
inductive ExecErr where
  | dbError (e : DBError)
  | perr (e : PErr)
deriving DecidableEq, Repr

/-- The `while data and data[0]:` token loop of `Connection._execute`
    (source lines 1200-1240), over the accumulated response payload.  State:
    current description, rows and running rowcount.  The fuel only bounds
    the recursion; `data.length + 1` covers every terminating Python
    execution since every branch consumes at least one octet (inputs that
    would loop forever in Python — e.g. an ENVCHANGE whose length field is
    exactly -3 — exhaust the fuel instead).

    The DONE membership test transcribes source line 1227, whose tuple
    `(TDS_DONE_TOKEN, TDS_DONEINPROC_TOKEN, TDS_DONE_TOKEN)` names
    `TDS_DONE_TOKEN` twice and `TDS_DONEPROC_TOKEN` not at all; the INFO
    branch parses the token's fields, discards them and then `break`s out
    of the loop. -/
def executeTokens (fuel : Nat) (query : List Nat) (encoding : Nat)
    (description : List Col) (rows : List (List Value)) (rowcount : Int)
    (data : List Nat) : Except ExecErr (List Col × List (List Value) × Int) :=
  match fuel with
  | 0 => .error (.perr .fuelExhausted)
  | fuel + 1 =>
    match data with
    | [] => .ok (description, rows, rowcount)
    | t :: _ =>
      if t = 0 then .ok (description, rows, rowcount)
      else if t = TDS_ERROR_TOKEN then
        match parse_error query data with
        | .ok e => .error (.dbError e)
        | .error pe => .error (.perr pe)
      else if t = TDS_INFO_TOKEN then
        -- all the parsed INFO fields are dead: the branch ends in `break`
        let _ln := leSInt (pySlice 1 3 data)
        let _info_num := leSInt (pySlice 3 7 data)
        let msg_ln := leSInt (pySlice 9 11 data)
        let _message := bytesToStr (pySlice 11 (msg_ln * 2 + 11) data)
        let data1 := pyDrop (msg_ln * 2 + 11) data
        let r1 := _parse_int data1 1
        let _server_name := bytesToStr (pyTake (r1.1 * 2) r1.2)
        let data2 := pyDrop (r1.1 * 2) r1.2
        let r2 := _parse_int data2 1
        let _proc_name := bytesToStr (pyTake (r2.1 * 2) r2.2)
        let data3 := pyDrop (r2.1 * 2) r2.2
        let _lineno := _parse_int data3 4
        .ok (description, rows, rowcount)
      else if t = TDS_TOKEN_COLMETADATA then
        match parse_description data with
        | .ok (description, data) =>
          executeTokens fuel query encoding description rows rowcount data
        | .error pe => .error (.perr pe)
      else if t = TDS_ROW_TOKEN then
        match parse_row description encoding data with
        | .ok (row, data) =>
          executeTokens fuel query encoding description (rows ++ [row])
            rowcount data
        | .error pe => .error (.perr pe)
      else if t = TDS_NBCROW_TOKEN then
        match parse_nbcrow description encoding data with
        | .ok (row, data) =>
          executeTokens fuel query encoding description (rows ++ [row])
            rowcount data
        | .error pe => .error (.perr pe)
      else if t = TDS_DONE_TOKEN ∨ t = TDS_DONEINPROC_TOKEN ∨
          t = TDS_DONE_TOKEN then
        executeTokens fuel query encoding description rows
          (rowcount + leSInt (pySlice 5 13 data)) (pyDrop 13 data)
      else if t = TDS_ORDER_TOKEN then
        executeTokens fuel query encoding description rows rowcount
          (pyDrop (3 + leSInt (pySlice 1 3 data)) data)
      else if t = TDS_ENVCHANGE_TOKEN then
        executeTokens fuel query encoding description rows rowcount
          (pyDrop (3 + leSInt (pySlice 1 3 data)) data)
      else if t = TDS_RETURNSTATUS_TOKEN then
        executeTokens fuel query encoding description rows rowcount
          (pyDrop (3 + leSInt (pySlice 1 3 data)) data)
      else
        .error (.perr (.unknownToken t))

/-- The token loop of `Connection._execute` on a fully accumulated response
    payload, started from the empty description/rows/rowcount state, with
    fuel sufficient for every terminating execution. -/
def execute_tokens (query : List Nat) (encoding : Nat) (data : List Nat) :
    Except ExecErr (List Col × List (List Value) × Int) :=
  executeTokens (data.length + 1) query encoding [] [] 0 data

-- -----------------------------------------------------------------------------
-- The model of the `Connection.__init__` prefix (source lines 1062-1072)

/-- The observable wire behaviour of the start of `Connection.__init__`
    (source lines 1062-1072): the TCP connect and timeout setting exchange
    no TDS bytes; then `if any([ord(c) > 127 for c in password])` raises
    `DatabaseError("Invalid password")`; only after that does
    `self._send_message(TDS_PRELOGIN, get_prelogin_bytes(...))` run.
    Returns the `(message type, payload)` messages handed to
    `_send_message` before the first socket read, and the raised error
    message if the check fired. -/
def connection_init_sends (password : List Nat) (use_ssl : Option Bool)
    (instanceName : List Nat) (pid : Nat) :
    List (Nat × List Nat) × Option String :=
  if password.any (fun c => 127 < c) then
    ([], some "Invalid password")
  else
    ([(TDS_PRELOGIN, get_prelogin_bytes use_ssl instanceName pid)], none)

-- -----------------------------------------------------------------------------
-- Generic helper lemmas

theorem length_toBytesLE (n v : Nat) : (toBytesLE n v).length = n := by
  simp [toBytesLE]

theorem length_toBytesBE (n v : Nat) : (toBytesBE n v).length = n := by
  simp [toBytesBE]

theorem length_strToBytes (s : List Nat) :
    (strToBytes s).length = 2 * s.length := by
  induction s with
  | nil => rfl
  | cons c cs ih =>
    simp only [strToBytes, List.flatMap_cons] at *
    simp [ih]
    omega

theorem drop_append_block {α : Type} (A L : List α) (n : Nat) :
    (A ++ L).drop (A.length + n) = L.drop n := by
  induction A with
  | nil => simp
  | cons a A ih =>
    simp only [List.cons_append, List.length_cons, Nat.succ_add,
      List.drop_succ_cons]
    exact ih

theorem and_shiftLeft_one_ne_zero (b k : Nat) :
    (b &&& (1 <<< k) ≠ 0) ↔ b.testBit k := by
  rw [Nat.shiftLeft_eq, one_mul, Nat.and_two_pow]
  cases h : b.testBit k <;> simp [h, Nat.pow_eq_zero]

-- -----------------------------------------------------------------------------
-- C2: the done-token kinds in `_execute`

/-- C2 (failing input and divergence): source line 1227 tests membership in
    `(TDS_DONE_TOKEN, TDS_DONEINPROC_TOKEN, TDS_DONE_TOKEN)`, so a DONEPROC
    (0xFE) token is not consumed into the rowcount — it falls through to
    `raise ValueError("Unknown token: 0xfe")` — while DONE (0xFD) and
    DONEINPROC (0xFF) both add their 8-byte row count and parsing continues
    with the following tokens (two DONE tokens accumulate both counts). -/
theorem doneproc_token_raises :
    execute_tokens [] 0
        [TDS_DONEPROC_TOKEN, 0, 0, 0, 0, 1, 0, 0, 0, 0, 0, 0, 0] =
      .error (.perr (.unknownToken TDS_DONEPROC_TOKEN))
    ∧ execute_tokens [] 0
        ([TDS_DONE_TOKEN, 0, 0, 0, 0, 1, 0, 0, 0, 0, 0, 0, 0] ++
         [TDS_DONE_TOKEN, 0, 0, 0, 0, 2, 0, 0, 0, 0, 0, 0, 0]) =
      .ok ([], [], 3)
    ∧ execute_tokens [] 0
        [TDS_DONEINPROC_TOKEN, 0, 0, 0, 0, 1, 0, 0, 0, 0, 0, 0, 0] =
      .ok ([], [], 1) :=
  ⟨by decide, by decide, by decide⟩

-- -----------------------------------------------------------------------------
-- C3: the INFO token in `_execute`

/-- C3 counterexample: the INFO branch of `_execute` ends in `break`, so a
    DONE token (row count 5) following an INFO token is *not* processed —
    the result keeps rowcount 0 — whereas the same DONE token alone yields
    rowcount 5.  This refutes "parsing then continues with the tokens that
    follow the INFO token". -/
theorem info_token_stops_parsing :
    execute_tokens [] 0
        ([TDS_INFO_TOKEN, 0, 0, 0, 0, 0, 0, 0, 0, 0, 0, 0, 0, 0, 0, 0, 0] ++
         [TDS_DONE_TOKEN, 0, 0, 0, 0, 5, 0, 0, 0, 0, 0, 0, 0]) =
      .ok ([], [], 0)
    ∧ execute_tokens [] 0
        [TDS_DONE_TOKEN, 0, 0, 0, 0, 5, 0, 0, 0, 0, 0, 0, 0] =
      .ok ([], [], 5) := by
  decide

/-- C3 amended: an INFO token (0xAB) is consumed without raising and
    without being surfaced to the caller — `_execute` returns exactly the
    description, rows and rowcount accumulated before it — but parsing
    stops there: whatever follows the INFO token in the stream is
    discarded (the branch ends in `break`).  Only ERROR tokens raise. -/
theorem info_token_consumed_then_break (f : Nat) (query : List Nat)
    (encoding : Nat) (description : List Col) (rows : List (List Value))
    (rowcount : Int) (rest : List Nat) :
    executeTokens (f + 1) query encoding description rows rowcount
      (TDS_INFO_TOKEN :: rest) = .ok (description, rows, rowcount) := by
  simp [executeTokens, TDS_ERROR_TOKEN, TDS_INFO_TOKEN]

-- -----------------------------------------------------------------------------
-- C6: the 300 Hz millisecond conversion of the two revisions

/-- C6 counterexample: at tick remainder 2 the current revision's
    truncating `t % 300 * 10 // 3` yields 6 ms (as the third conjunct shows
    end-to-end through `_parse_column` on a DATETIME value with tick count
    2), while the older revision's `int(round(t % 300 * 10 / 3.0))` yields
    7 ms — the two revisions' DATETIME decoders do not agree for every
    tick count, refuting the claim as stated. -/
theorem datetime_ms_revisions_disagree :
    datetimeMs 2 = 6 ∧ datetimeMsOld 2 = 7
    ∧ _parse_column [] DATETIMETYPE 8 (-1) (-1) 0
        [0, 0, 0, 0, 2, 0, 0, 0] = .ok (.datetime 0 0 6, []) := by
  decide

/-- C6 amended: the current revision's DATETIME/DATETIM4/DATETIMN decoders
    (and `_parse_variant`'s DATETIME case) compute milliseconds as
    `t % 300 * 10 // 3` with truncating integer arithmetic, so remainders
    0, 1, 2, 3 yield 0, 3, 6, 10 ms; the older revision's DATETIME decoder
    rounds to nearest instead, and the two computations agree at a tick
    count `t` exactly when `t % 300 % 3 ≠ 2` (at remainder-mod-3 two the
    older revision is one millisecond higher). -/
theorem datetime_ms_amended (t : Int) :
    datetimeMs t = t % 300 * 10 / 3
    ∧ (datetimeMs 0 = 0 ∧ datetimeMs 1 = 3 ∧ datetimeMs 2 = 6 ∧
        datetimeMs 3 = 10)
    ∧ (datetimeMsOld t = datetimeMs t ↔ t % 300 % 3 ≠ 2) := by
  refine ⟨rfl, by decide, ?_⟩
  simp only [datetimeMs, datetimeMsOld]
  rcases (by omega : t % 300 % 3 = 0 ∨ t % 300 % 3 = 1 ∨ t % 300 % 3 = 2) with
    h | h | h <;> omega

-- -----------------------------------------------------------------------------
-- C7: DECIMALN/NUMERICN magnitude octets

/-- C7 (failing input and divergence): the decimal branch of
    `_parse_column` reads the `len-1` magnitude octets with `_parse_int`,
    i.e. little-endian *signed*; on the wire the magnitude is unsigned (the
    separate sign byte carries the sign — the spec says "little-endian
    unsigned").  On `len = 2`, sign byte 1 (positive), magnitude octet 0x80
    and scale 0, the code produces -128 where the unsigned reading of the
    same octet is 128. -/
theorem decimal_magnitude_parsed_signed :
    _parse_column [] DECIMALNTYPE 5 5 0 0 [2, 1, 128] =
      .ok (.decimal (-128) 0, [])
    ∧ leUInt [128] = 128 := by
  decide

-- -----------------------------------------------------------------------------
-- C4: `Connection.parse_error` classification

/-- C4: for every server ERROR token, `parse_error` returns a
    ProgrammingError exactly for error numbers {102, 207, 208, 2812, 4104},
    an IntegrityError exactly for {515, 547, 2601, 2627}, and an
    OperationalError for every other number; the returned exception carries
    the 4-octet server error number, the decoded UCS-2 message text and the
    failing SQL text. -/
theorem parse_error_classification (query data : List Nat) (e : DBError)
    (h : parse_error query data = .ok e) :
    (e.kind = .programming ↔
      e.errNum ∈ ([102, 207, 208, 2812, 4104] : List Int))
    ∧ (e.kind = .integrity ↔ e.errNum ∈ ([515, 547, 2601, 2627] : List Int))
    ∧ (e.kind = .operational ↔
        (e.errNum ∉ ([102, 207, 208, 2812, 4104] : List Int)
          ∧ e.errNum ∉ ([515, 547, 2601, 2627] : List Int)))
    ∧ e.errNum = leSInt (pySlice 3 7 data)
    ∧ e.message = bytesToStr
        (pySlice 11 (leSInt (pySlice 9 11 data) * 2 + 11) data)
    ∧ e.query = query := by
  cases data with
  | nil => simp [parse_error] at h
  | cons t rest =>
    simp only [parse_error] at h
    split_ifs at h with ht h1 h2
    · -- ProgrammingError branch
      injection h with h
      subst h
      refine ⟨?_, ?_, ?_, rfl, rfl, rfl⟩
      · constructor
        · intro _
          simp only [List.mem_cons, List.not_mem_nil, or_false]
          exact h1
        · intro _
          rfl
      · constructor
        · intro hh
          exact ExcKind.noConfusion hh
        · intro hh
          simp only [List.mem_cons, List.not_mem_nil, or_false] at hh
          omega
      · constructor
        · intro hh
          exact ExcKind.noConfusion hh
        · intro hh
          refine absurd ?_ hh.1
          simp only [List.mem_cons, List.not_mem_nil, or_false]
          exact h1
    · -- IntegrityError branch
      injection h with h
      subst h
      refine ⟨?_, ?_, ?_, rfl, rfl, rfl⟩
      · constructor
        · intro hh
          exact ExcKind.noConfusion hh
        · intro hh
          simp only [List.mem_cons, List.not_mem_nil, or_false] at hh
          exact absurd hh h1
      · constructor
        · intro _
          simp only [List.mem_cons, List.not_mem_nil, or_false]
          exact h2
        · intro _
          rfl
      · constructor
        · intro hh
          exact ExcKind.noConfusion hh
        · intro hh
          refine absurd ?_ hh.2
          simp only [List.mem_cons, List.not_mem_nil, or_false]
          exact h2
    · -- OperationalError branch
      injection h with h
      subst h
      refine ⟨?_, ?_, ?_, rfl, rfl, rfl⟩
      · constructor
        · intro hh
          exact ExcKind.noConfusion hh
        · intro hh
          simp only [List.mem_cons, List.not_mem_nil, or_false] at hh
          exact absurd hh h1
      · constructor
        · intro hh
          exact ExcKind.noConfusion hh
        · intro hh
          simp only [List.mem_cons, List.not_mem_nil, or_false] at hh
          exact absurd hh h2
      · constructor
        · intro _
          constructor
          · intro hm
            simp only [List.mem_cons, List.not_mem_nil, or_false] at hm
            exact h1 hm
          · intro hm
            simp only [List.mem_cons, List.not_mem_nil, or_false] at hm
            exact h2 hm
        · intro _
          rfl

/-- Witness for C4: a concrete ERROR token with error number 102 (message
    length 0) classifies as ProgrammingError. -/
theorem parse_error_classification_witness :
    parse_error [] [0xAA, 0, 0, 102, 0, 0, 0, 1, 16, 0, 0] =
      .ok ⟨.programming, 102, [], []⟩
    ∧ ((⟨.programming, 102, [], []⟩ : DBError).kind = .programming ↔
        (⟨.programming, 102, [], []⟩ : DBError).errNum ∈
          ([102, 207, 208, 2812, 4104] : List Int)) :=
  ⟨by decide,
   (parse_error_classification [] [0xAA, 0, 0, 102, 0, 0, 0, 1, 16, 0, 0]
      ⟨.programming, 102, [], []⟩ (by decide)).1⟩

-- -----------------------------------------------------------------------------
-- C5: the obfuscated password field of the LOGIN7 message

theorem length_login_header (ps p t l c u pw ho d n : Nat) :
    (login_header ps p t l c u pw ho d n).length = 94 := by
  simp [login_header, length_toBytesLE, length_toBytesBE]

theorem drop_prefix_take {α : Type} (H C U PW R : List α) (n m : Nat)
    (hn : n = H.length + C.length + U.length) (hm : m = PW.length) :
    ((H ++ (C ++ (U ++ (PW ++ R)))).drop n).take m = PW := by
  subst hn hm
  have h1 : H.length + C.length + U.length =
      H.length + (C.length + (U.length + 0)) := by omega
  rw [h1, drop_append_block, drop_append_block, drop_append_block,
    List.drop_zero, List.take_left]

/-- C5: in the LOGIN7 message built by `get_login_bytes`, the password
    field sits right after the 94-octet header and the UCS-2 client and
    user names, has the length of the UCS-2 encoding of the password, and
    each of its octets is the corresponding UCS-2 octet `c` transformed to
    `(((c << 4) & 0xff) | (c >> 4)) ^ 0xa5` (nibble swap, then XOR 0xA5). -/
theorem login_password_obfuscation (host user password database : List Nat)
    (lcid : Nat) (client_name : List Nat) (pid tz node : Nat) :
    ((get_login_bytes host user password database lcid client_name pid tz
          node).drop (94 + (client_name.length + user.length) * 2)).take
        ((strToBytes password).length)
      = (strToBytes password).map pwObfuscate
    ∧ ((strToBytes password).map pwObfuscate).length =
        (strToBytes password).length
    ∧ ∀ c, pwObfuscate c = (((c <<< 4) &&& 0xff) ||| (c >>> 4)) ^^^ 0xa5 := by
  refine ⟨?_, List.length_map _ _, fun c => rfl⟩
  simp only [get_login_bytes, List.append_assoc]
  refine drop_prefix_take _ _ _ _ _ _ _ ?_ ?_
  · rw [length_login_header, length_strToBytes, length_strToBytes]
    ring
  · rw [List.length_map]

-- -----------------------------------------------------------------------------
-- C8: the NBCROW null bitmap

theorem except_bind_ok {e a b : Type} (x : a) (f : a → Except e b) :
    ((Except.ok x : Except e a) >>= f) = f x := rfl

theorem parse_nbcrow_cols_eq_spec (description : List Col) :
    ∀ (i : Nat) (bitmap : List Nat) (encoding : Nat) (data : List Nat),
      (∀ j, i ≤ j → j < i + description.length → j / 8 < bitmap.length) →
      parse_nbcrow_cols description i bitmap encoding data =
        parse_nbcrow_spec_cols description i bitmap encoding data := by
  induction description with
  | nil =>
    intro i bitmap encoding data _
    rfl
  | cons c rest ih =>
    intro i bitmap encoding data h
    have hi : i / 8 < bitmap.length := h i le_rfl (by simp)
    have hget : bitmap[i / 8]? = some bitmap[i / 8] :=
      List.getElem?_eq_getElem hi
    have hgetD : bitmap.getD (i / 8) 0 = bitmap[i / 8] := by
      rw [List.getD_eq_getElem?_getD, hget]
      rfl
    have hih : ∀ d : List Nat,
        parse_nbcrow_cols rest (i + 1) bitmap encoding d =
          parse_nbcrow_spec_cols rest (i + 1) bitmap encoding d :=
      fun d => ih (i + 1) bitmap encoding d
        (fun j hj1 hj2 => h j (by omega) (by simp at hj2 ⊢; omega))
    have hcond := and_shiftLeft_one_ne_zero (bitmap[i / 8]) (i % 8)
    simp only [parse_nbcrow_cols, parse_nbcrow_spec_cols, hget, hgetD, hih,
      hcond, except_bind_ok]

/-- C8: `parse_nbcrow` behaves exactly as the specification describes —
    after the NBCROW tag it consumes exactly `⌈ncols/8⌉` null-bitmap
    octets; column `i` is null, consuming no value bytes, exactly when bit
    `i % 8` (least-significant first) of bitmap octet `i / 8` is set, and
    is otherwise decoded from the stream by the column decoder; values
    appear in metadata order (`parse_nbcrow_spec` transcribes the spec's
    words).  The hypothesis says the response data actually contains the
    bitmap; on shorter data both the source and the model raise. -/
theorem parse_nbcrow_matches_spec (description : List Col) (encoding : Nat)
    (data : List Nat)
    (h : (description.length + 7) / 8 ≤ data.tail.length) :
    parse_nbcrow description encoding data =
      parse_nbcrow_spec description encoding data := by
  cases data with
  | nil => rfl
  | cons t rest =>
    simp only [List.tail_cons] at h
    by_cases ht : t = TDS_NBCROW_TOKEN
    · subst ht
      simp only [parse_nbcrow, parse_nbcrow_spec, _parse_byte,
        except_bind_ok, ne_eq, not_true_eq_false, if_false, ite_not,
        if_true, reduceIte]
      refine parse_nbcrow_cols_eq_spec description 0
        (rest.take ((description.length + 7) / 8)) encoding
        (rest.drop ((description.length + 7) / 8)) ?_
      intro j hj0 hjn
      rw [List.length_take]
      omega
    · simp [parse_nbcrow, parse_nbcrow_spec, _parse_byte, except_bind_ok, ht]

/-- Witness for C8: one INT4 column and an NBCROW token whose bitmap octet
    has bit 0 set. -/
theorem parse_nbcrow_matches_spec_witness :
    (([(⟨[], 56, 4, 4, -1, -1, true⟩ : Col)].length + 7) / 8 ≤
      ([TDS_NBCROW_TOKEN, 1] : List Nat).tail.length)
    ∧ parse_nbcrow [⟨[], 56, 4, 4, -1, -1, true⟩] 0 [TDS_NBCROW_TOKEN, 1] =
        parse_nbcrow_spec [⟨[], 56, 4, 4, -1, -1, true⟩] 0
          [TDS_NBCROW_TOKEN, 1] :=
  ⟨by decide,
   parse_nbcrow_matches_spec [⟨[], 56, 4, 4, -1, -1, true⟩] 0
     [TDS_NBCROW_TOKEN, 1] (by decide)⟩

-- -----------------------------------------------------------------------------
-- C9: the TIMEN decoder `_convert_time`

/-- C9 counterexample: the claim reads the payload as counting
    `10 ^ (7 - p)`-nanosecond units, but `_convert_time` multiplies the
    unit count by `10 ^ (7 - precision)` and then by another 100 to reach
    nanoseconds.  At precision 0 the payload `[1]` decodes as one full
    second (1 000 000 µs after midnight), where the claimed unit — `10^7`
    ns — would put it at 10 000 µs after midnight. -/
theorem convert_time_unit_counterexample :
    _convert_time [1] 0 = .ok ⟨0, 0, 1, 0⟩
    ∧ ((0 * 60 + 0) * 60 + 1) * 1000000 + 0 ≠
        leUInt [1] * 10 ^ ((7 : Int) - 0).toNat / 1000 :=
  ⟨by decide, by decide⟩

/-- C9 amended: for precision `p ≤ 7` and a payload whose unit count stays
    within one day, `_convert_time` reads the payload as an unsigned
    little-endian count of `10 ^ (7 - p)` *hundred*-nanosecond units (that
    is, `10 ^ (-p)` seconds) since midnight and returns the time of day
    exactly that many units after midnight, truncated to the microsecond:
    the components are in range and `((h * 60 + m) * 60 + s) * 10^6 + us`
    equals the unit count times `10 ^ (7 - p)`, divided by 10
    (100 ns → 1 µs, truncating). -/
theorem convert_time_spec (b : List Nat) (p : Int) (hp : p ≤ 7)
    (hday : leUInt b * 10 ^ (7 - p).toNat * 100 < 86400 * 1000000000) :
    ∃ t : TimeOfDay, _convert_time b p = .ok t
      ∧ t.h < 24 ∧ t.m < 60 ∧ t.s < 60 ∧ t.us < 1000000
      ∧ ((t.h * 60 + t.m) * 60 + t.s) * 1000000 + t.us
          = leUInt b * 10 ^ (7 - p).toNat / 10 := by
  simp only [_convert_time]
  rw [if_neg (by omega)]
  generalize leUInt b * 10 ^ (7 - p).toNat = x at hday ⊢
  rw [if_neg (by omega)]
  refine ⟨_, rfl, ?_, ?_, ?_, ?_, ?_⟩ <;> dsimp only <;> omega

/-- Witness for C9 at precision 7 and the one-octet payload `[1]`
    (one 100 ns unit after midnight). -/
theorem convert_time_spec_witness :
    ((7 : Int) ≤ 7)
    ∧ (leUInt [1] * 10 ^ ((7 : Int) - 7).toNat * 100 < 86400 * 1000000000)
    ∧ ∃ t : TimeOfDay, _convert_time [1] 7 = .ok t
        ∧ t.h < 24 ∧ t.m < 60 ∧ t.s < 60 ∧ t.us < 1000000
        ∧ ((t.h * 60 + t.m) * 60 + t.s) * 1000000 + t.us
            = leUInt [1] * 10 ^ ((7 : Int) - 7).toNat / 10 :=
  ⟨by decide, by decide, convert_time_spec [1] 7 (by decide) (by decide)⟩

-- -----------------------------------------------------------------------------
-- C10: the non-ASCII password check in `Connection.__init__`

/-- C10: a password containing any code point above 127 makes
    `Connection.__init__` raise `DatabaseError("Invalid password")` before
    any TDS message is sent (the send log at the raise is empty); an
    all-ASCII password passes the check, and the first message sent on the
    socket is the PRELOGIN message. -/
theorem invalid_password_check (password : List Nat) (use_ssl : Option Bool)
    (instanceName : List Nat) (pid : Nat) :
    ((∃ c ∈ password, 127 < c) →
      connection_init_sends password use_ssl instanceName pid =
        ([], some "Invalid password"))
    ∧ ((∀ c ∈ password, c ≤ 127) →
      connection_init_sends password use_ssl instanceName pid =
        ([(TDS_PRELOGIN, get_prelogin_bytes use_ssl instanceName pid)],
          none)) := by
  constructor
  · intro h
    obtain ⟨c, hc, hlt⟩ := h
    have ha : password.any (fun c => 127 < c) = true :=
      List.any_eq_true.mpr ⟨c, hc, by simpa using hlt⟩
    simp [connection_init_sends, ha]
  · intro h
    have ha : password.any (fun c => 127 < c) = false := by
      rw [List.any_eq_false]
      intro c hc
      simpa using Nat.not_lt.mpr (h c hc)
    simp [connection_init_sends, ha]

/-- Witness for C10: the one-character password `[955]` (λ, above 127)
    aborts with no message sent; the password `[97]` ("a") passes the check
    and PRELOGIN goes out first. -/
theorem invalid_password_check_witness :
    connection_init_sends [955] none [] 0 = ([], some "Invalid password")
    ∧ connection_init_sends [97] none [] 0 =
        ([(TDS_PRELOGIN, get_prelogin_bytes none [] 0)], none) :=
  ⟨(invalid_password_check [955] none [] 0).1 ⟨955, by simp, by omega⟩,
   (invalid_password_check [97] none [] 0).2 (by
     intro c hc
     simp at hc
     omega)⟩

end Minitds
